import Mathlib

/-!
Verification of the score-normalization and orchestration layer of
DeepGuard-AI (`src/utils.py`).

The Python module is shallowly embedded: each analyzer becomes a Lean
function; the external inference / codec collaborators (transformers
pipelines, PIL, librosa, soundfile, the filesystem) become explicit
environment records whose fields return `Except String _`, mirroring the
fact that any collaborator call may raise.  A Python `try/except` block
becomes a `match` on the `Except` value of the embedded body; the
`finally` deleting the audio temp file becomes an explicit disk-state
update.  Confidences are modelled as rationals (the Python arithmetic on
them, `c * 100.0` and `(1 - c) * 100.0`, is exact).
-/

namespace DeepGuard

/-! ## Python string primitives used by the source -/

/-- `len(s)` — number of characters. -/
def pyLen (s : String) : Nat := s.data.length

/-- Drop leading whitespace characters from a character list. -/
def dropLeadingWs : List Char → List Char
  | [] => []
  | c :: cs => if c.isWhitespace then dropLeadingWs cs else c :: cs

/-- `s.strip()` — remove leading and trailing whitespace. -/
def pyStrip (s : String) : String :=
  ⟨(dropLeadingWs (dropLeadingWs s.data.reverse).reverse)⟩

/-- `s.lower()` — lower-case every character. -/
def pyLower (s : String) : String := ⟨s.data.map Char.toLower⟩

/-- `s[:n]` — first `n` characters. -/
def pyTake (n : Nat) (s : String) : String := ⟨s.data.take n⟩

/-- Does the pattern occur as a leading run of the list? -/
def startsWithL : List Char → List Char → Bool
  | [], _ => true
  | _ :: _, [] => false
  | p :: ps, c :: cs => p = c && startsWithL ps cs

/-- Does the pattern occur as a contiguous run anywhere in the list? -/
def containsSubL (pat : List Char) : List Char → Bool
  | [] => startsWithL pat []
  | c :: cs => startsWithL pat (c :: cs) || containsSubL pat cs

/-- Python `pat in s` — substring containment. -/
def strContainsSub (s pat : String) : Bool := containsSubL pat.data s.data

/-! ## Data model -/

/-- One entry of a collaborator's output list: `{"label": ..., "score": ...}`.
The `score` field is the collaborator's confidence in `[0,1]`. -/
structure Classification where
  label : String
  score : ℚ
  deriving DecidableEq

/-- The `details` half of a result.  The Python code returns heterogeneous
dictionaries / lists; each shape gets a constructor:
`error msg` is the dict with only an "error" key; `shortText` is the
short-text rejection dict carrying "error" and "text_length";
`classifications out` echoes the raw collaborator output list (image and
audio success); `textResult` is the text-success dict carrying
"detector_label" and "detector_confidence". -/
inductive Details where
  | error (msg : String)
  | shortText (msg : String) (textLength : Nat)
  | classifications (out : List Classification)
  | textResult (label : String) (confidence : ℚ)
  deriving DecidableEq

/-- Does the details dict carry an "error" entry? -/
def Details.hasError : Details → Bool
  | .error _ => true
  | .shortText _ _ => true
  | .classifications _ => false
  | .textResult _ _ => false

/-- `out[0]` — heads the list, raising `IndexError` when empty. -/
def getItem0 : List Classification → Except String Classification
  | [] => .error "list index out of range"
  | c :: _ => .ok c

/-! ## Collaborator environments

Each field is one external call the source makes; returning
`Except.error e` models that call raising an exception with message `e`. -/

/-- Paths of files currently present on disk (the audio temp-file state). -/
abbrev Disk := List String

/-- Collaborators used by `image_score_ml`. -/
structure ImageEnv where
  getPipe : Except String Unit
  decode : List Nat → Except String (List Nat)
  classify : List Nat → Except String (List Classification)

/-- Collaborators used by `process_audio_file`.  `tmpName` is the fresh
path chosen by `tempfile.NamedTemporaryFile`; `write` is the outcome of
`tmp.write(audio_bytes)`; `load` is `librosa.load(tmp_path, sr=16000,
mono=True)`; `encodeWav` is `sf.write(..., format="WAV")` followed by
reading the buffer back; `classify` is the audio pipeline call. -/
structure AudioEnv where
  tmpName : String
  write : List Nat → Except String Unit
  load : Except String (List ℚ × Nat)
  encodeWav : List ℚ → Nat → Except String (List Nat)
  getPipe : Except String Unit
  classify : List Nat → Except String (List Classification)

/-- Collaborators used by `text_score_ml`. -/
structure TextEnv where
  getDetector : Except String Unit
  detect : String → Except String (List Classification)

/-- All collaborators reachable from `analyze_content`. -/
structure Env where
  image : ImageEnv
  audio : AudioEnv

/-! ## Image analysis (`image_score_ml`, src/utils.py lines 92-105) -/

/-- Body of the `try` block of `image_score_ml`. -/
def imageBody (env : ImageEnv) (image_bytes : List Nat) :
    Except String (ℚ × Details) :=
  match env.getPipe with
  | .error e => .error e
  | .ok () =>
    match env.decode image_bytes with
    | .error e => .error e
    | .ok pil =>
      match env.classify pil with
      | .error e => .error e
      | .ok out =>
        match getItem0 out with
        | .error e => .error e
        | .ok top =>
          if strContainsSub (pyLower top.label) "real" ||
              strContainsSub (pyLower top.label) "realism" then
            .ok ((1 - top.score) * 100, .classifications out)
          else
            .ok (top.score * 100, .classifications out)

/-- `image_score_ml(image_bytes)`: run the body, catching every exception
into the error-result shape. -/
def image_score_ml (env : ImageEnv) (image_bytes : List Nat) : ℚ × Details :=
  match imageBody env image_bytes with
  | .ok r => r
  | .error e => (0, .error ("Error processing image: " ++ e))

/-! ## Text analysis (`text_score_ml`, src/utils.py lines 67-87) -/

/-- Body of the `try` block of `text_score_ml`. -/
def textBody (env : TextEnv) (text : String) : Except String (ℚ × Details) :=
  if pyLen (pyStrip text) < 50 then
    .ok (0, .shortText "Text is too short for accurate analysis" (pyLen text))
  else
    match env.getDetector with
    | .error e => .error e
    | .ok () =>
      match env.detect (pyTake 1000 text) with
      | .error e => .error e
      | .ok out =>
        match getItem0 out with
        | .error e => .error e
        | .ok top =>
          if strContainsSub (pyLower top.label) "fake" ||
              strContainsSub (pyLower top.label) "generated" then
            .ok (top.score * 100, .textResult (pyLower top.label) (top.score * 100))
          else if strContainsSub (pyLower top.label) "real" ||
              strContainsSub (pyLower top.label) "human" then
            .ok (100 - top.score * 100, .textResult (pyLower top.label) (top.score * 100))
          else
            .ok (top.score * 100, .textResult (pyLower top.label) (top.score * 100))

/-- `text_score_ml(text)`: run the body, catching every exception into the
error-result shape. -/
def text_score_ml (env : TextEnv) (text : String) : ℚ × Details :=
  match textBody env text with
  | .ok r => r
  | .error e => (0, .error ("Error processing text: " ++ e))

/-! ## Audio analysis (`process_audio_file`, src/utils.py lines 36-62) -/

/-- `os.path.splitext(filename)[1]` — raises `TypeError` when the filename
is `None` (the default `analyze_content` passes when no filename is given). -/
def splitextModel : Option String → Except String String
  | none => .error "expected str, bytes or os.PathLike object, not NoneType"
  | some f => .ok f

/-- The inner `try` block of `process_audio_file`: decode, re-encode,
classify, normalize.  Does not touch the disk state. -/
def audioInner (env : AudioEnv) : Except String (ℚ × Details) :=
  match env.load with
  | .error e => .error e
  | .ok (y, sr) =>
    match env.encodeWav y sr with
    | .error e => .error e
    | .ok wav =>
      match env.getPipe with
      | .error e => .error e
      | .ok () =>
        match env.classify wav with
        | .error e => .error e
        | .ok out =>
          match getItem0 out with
          | .error e => .error e
          | .ok top =>
            if strContainsSub (pyLower top.label) "real" ||
                strContainsSub (pyLower top.label) "bonafide" then
              .ok ((1 - top.score) * 100, .classifications out)
            else
              .ok (top.score * 100, .classifications out)

/-- `process_audio_file(audio_bytes, filename)`, with the disk state made
explicit.  `NamedTemporaryFile(delete=False, ...)` creates `env.tmpName`
on disk; the `finally` block unlinks it (modelled by `List.erase`, a
no-op when the path is absent, matching the `os.path.exists` guard).
Note the write into the temp file happens before the inner
`try ... finally`, so a failing write skips the unlink. -/
def process_audio_file (env : AudioEnv) (audio_bytes : List Nat)
    (filename : Option String) (disk : Disk) : (ℚ × Details) × Disk :=
  match splitextModel filename with
  | .error e => ((0, .error ("Error processing audio: " ++ e)), disk)
  | .ok _ =>
    let disk1 := env.tmpName :: disk
    match env.write audio_bytes with
    | .error e => ((0, .error ("Error processing audio: " ++ e)), disk1)
    | .ok () =>
      let disk2 := disk1.erase env.tmpName
      match audioInner env with
      | .ok r => (r, disk2)
      | .error e => ((0, .error ("Error processing audio: " ++ e)), disk2)

/-- `audio_score_ml` (src/utils.py lines 110-111) forwards to
`process_audio_file`. -/
def audio_score_ml (env : AudioEnv) (audio_bytes : List Nat)
    (filename : Option String) (disk : Disk) : (ℚ × Details) × Disk :=
  process_audio_file env audio_bytes filename disk

/-! ## Facade (`analyze_content` / `analyze_text`, src/utils.py lines 121-140)

The progress-bar loop at the top of both functions only drives the UI
collaborator (`time.sleep` / `progress_bar.progress`) and contributes
nothing to the returned value, so it has no counterpart here. -/

/-- `analyze_content(modality, file_bytes, progress_bar, filename)`. -/
def analyze_content (env : Env) (modality : String) (file_bytes : List Nat)
    (filename : Option String) (disk : Disk) : (ℚ × Details) × Disk :=
  if modality = "Image" ∨ modality = "Video" then
    (image_score_ml env.image file_bytes, disk)
  else if modality = "Audio" then
    audio_score_ml env.audio file_bytes filename disk
  else
    ((0, .error "Unsupported modality"), disk)

/-- `analyze_text(text)` forwards to `text_score_ml`. -/
def analyze_text (env : TextEnv) (text : String) : ℚ × Details :=
  text_score_ml env text

/-! ## Derived notions used by the statements -/

/-- The likelihood computed by the text normalization chain for a top entry. -/
def textLikelihood (top : Classification) : ℚ :=
  if strContainsSub (pyLower top.label) "fake" ||
      strContainsSub (pyLower top.label) "generated" then
    top.score * 100
  else if strContainsSub (pyLower top.label) "real" ||
      strContainsSub (pyLower top.label) "human" then
    100 - top.score * 100
  else
    top.score * 100

/-- Every confidence in a collaborator output list lies in `[0,1]`. -/
def confidencesOk (out : List Classification) : Prop :=
  ∀ cl ∈ out, 0 ≤ cl.score ∧ cl.score ≤ 1

/-- The image classification collaborator only emits confidences in `[0,1]`. -/
def ImageEnv.rangeOk (env : ImageEnv) : Prop :=
  ∀ pil out, env.classify pil = .ok out → confidencesOk out

/-- The audio classification collaborator only emits confidences in `[0,1]`. -/
def AudioEnv.rangeOk (env : AudioEnv) : Prop :=
  ∀ wav out, env.classify wav = .ok out → confidencesOk out

/-- The text detection collaborator only emits confidences in `[0,1]`. -/
def TextEnv.rangeOk (env : TextEnv) : Prop :=
  ∀ s out, env.detect s = .ok out → confidencesOk out

/-- The result invariant of the spec: a non-error result has a score in
`[0,100]`; an error result has score `0`. -/
def resultOk (r : ℚ × Details) : Prop :=
  (r.2.hasError = false → 0 ≤ r.1 ∧ r.1 ≤ 100) ∧ (r.2.hasError = true → r.1 = 0)

/-- Shape of every `analyze_content` result: an error dict with score `0`,
or the echoed classification list. -/
def contentShaped (r : ℚ × Details) : Prop :=
  (r.1 = 0 ∧ ∃ msg, r.2 = .error msg) ∨ (∃ out, r.2 = .classifications out)

/-- Shape of every `analyze_text` result: an error-carrying dict with score
`0`, or the detector-label dict. -/
def textShaped (r : ℚ × Details) : Prop :=
  (r.1 = 0 ∧ r.2.hasError = true) ∨ (∃ l c, r.2 = .textResult l c)

/-! ## Concrete collaborator instances used in closed statements -/

/-- A 60-character input, comfortably above the 50-character guard. -/
def sixtyAs : String := ⟨List.replicate 60 'a'⟩

/-- 10 characters padded with 45 trailing blanks: total length 55,
stripped length 10. -/
def paddedShort : String := "aaaaaaaaaa" ++ ⟨List.replicate 45 ' '⟩

/-- Image collaborators whose top classification is `Realism` at `0.9`. -/
def imageEnvRealism : ImageEnv :=
  { getPipe := .ok ()
    decode := fun _ => .ok [7]
    classify := fun _ => .ok [{ label := "Realism", score := 9/10 }] }

/-- Image collaborators whose top label matches both polarity sets. -/
def imageEnvFakeReal : ImageEnv :=
  { getPipe := .ok ()
    decode := fun _ => .ok [5]
    classify := fun _ => .ok [{ label := "Fake Real", score := 1/10 }] }

/-- Image collaborators that always fail. -/
def imageEnvErr : ImageEnv :=
  { getPipe := .error "model unavailable"
    decode := fun _ => .error "model unavailable"
    classify := fun _ => .error "model unavailable" }

/-- Audio collaborators whose top classification is `bonafide` at `0.6`. -/
def audioEnvBonafide : AudioEnv :=
  { tmpName := "/tmp/tmp1234.wav"
    write := fun _ => .ok ()
    load := .ok ([], 16000)
    encodeWav := fun _ _ => .ok [2]
    getPipe := .ok ()
    classify := fun _ => .ok [{ label := "bonafide", score := 3/5 }] }

/-- Audio collaborators whose top label matches both polarity sets. -/
def audioEnvSpoofBonafide : AudioEnv :=
  { tmpName := "/tmp/tmp5678.wav"
    write := fun _ => .ok ()
    load := .ok ([], 16000)
    encodeWav := fun _ _ => .ok [3]
    getPipe := .ok ()
    classify := fun _ => .ok [{ label := "Spoof-Bonafide", score := 2/5 }] }

/-- Audio collaborators that always fail. -/
def audioEnvErr : AudioEnv :=
  { tmpName := "/tmp/tmp9999.wav"
    write := fun _ => .error "model unavailable"
    load := .error "model unavailable"
    encodeWav := fun _ _ => .error "model unavailable"
    getPipe := .error "model unavailable"
    classify := fun _ => .error "model unavailable" }

/-- Audio collaborators where writing the temp file fails (disk full) and
everything later is unreachable. -/
def leakEnv : AudioEnv :=
  { tmpName := "/tmp/tmpleak.wav"
    write := fun _ => .error "No space left on device"
    load := .error "unreached"
    encodeWav := fun _ _ => .error "unreached"
    getPipe := .error "unreached"
    classify := fun _ => .error "unreached" }

/-- Text collaborators whose top classification is `Fake` at `0.82`. -/
def textEnvFake : TextEnv :=
  { getDetector := .ok ()
    detect := fun _ => .ok [{ label := "Fake", score := 82/100 }] }

/-- Text collaborators whose top label contains both `fake` and `real`. -/
def textEnvFakeReal : TextEnv :=
  { getDetector := .ok ()
    detect := fun _ => .ok [{ label := "Fake Real", score := 1/4 }] }

/-- Text collaborators whose top label contains both `generated` and `human`. -/
def textEnvGenHuman : TextEnv :=
  { getDetector := .ok ()
    detect := fun _ => .ok [{ label := "Generated-Human", score := 7/10 }] }

/-- Text collaborators that always fail. -/
def textEnvErr : TextEnv :=
  { getDetector := .error "model unavailable"
    detect := fun _ => .error "model unavailable" }

/-- A facade environment whose collaborators all fail. -/
def envErr : Env := { image := imageEnvErr, audio := audioEnvErr }

/-- A facade environment whose audio temp-file write fails. -/
def envLeak : Env := { image := imageEnvErr, audio := leakEnv }

/-- A facade environment whose collaborators all succeed. -/
def envOk : Env := { image := imageEnvRealism, audio := audioEnvBonafide }

/-! ## Characterization lemmas: one case split per analyzer -/

/-- Exhaustive description of `image_score_ml`: an error result, or the
normalized score of the top classification with the echoed output list. -/
lemma image_score_ml_cases (env : ImageEnv) (b : List Nat) :
    (∃ e, image_score_ml env b = (0, .error ("Error processing image: " ++ e))) ∨
    (∃ pil top rest, env.decode b = .ok pil ∧ env.classify pil = .ok (top :: rest) ∧
      image_score_ml env b =
        (if strContainsSub (pyLower top.label) "real" ||
            strContainsSub (pyLower top.label) "realism" then
          ((1 - top.score) * 100, .classifications (top :: rest))
        else
          (top.score * 100, .classifications (top :: rest)))) := by
  unfold image_score_ml imageBody
  cases hg : env.getPipe with
  | error e => exact Or.inl ⟨e, rfl⟩
  | ok u =>
    cases u
    dsimp only
    cases hd : env.decode b with
    | error e => exact Or.inl ⟨e, rfl⟩
    | ok pil =>
      dsimp only
      cases hc : env.classify pil with
      | error e => exact Or.inl ⟨e, rfl⟩
      | ok out =>
        dsimp only
        cases out with
        | nil => exact Or.inl ⟨"list index out of range", rfl⟩
        | cons top rest =>
          refine Or.inr ⟨pil, top, rest, rfl, hc, ?_⟩
          by_cases hcond : (strContainsSub (pyLower top.label) "real" ||
              strContainsSub (pyLower top.label) "realism") = true
          · simp [getItem0, hcond]
          · simp [getItem0, hcond]

/-- Exhaustive description of `text_score_ml`: the short-text rejection, an
error result, or the text likelihood with the detector-label dict. -/
lemma text_score_ml_cases (env : TextEnv) (t : String) :
    (pyLen (pyStrip t) < 50 ∧
      text_score_ml env t =
        (0, .shortText "Text is too short for accurate analysis" (pyLen t))) ∨
    (∃ e, text_score_ml env t = (0, .error ("Error processing text: " ++ e))) ∨
    (∃ top rest, env.detect (pyTake 1000 t) = .ok (top :: rest) ∧
      text_score_ml env t =
        (textLikelihood top, .textResult (pyLower top.label) (top.score * 100))) := by
  unfold text_score_ml textBody
  by_cases hlen : pyLen (pyStrip t) < 50
  · exact Or.inl ⟨hlen, by simp [hlen]⟩
  · rw [if_neg hlen]
    cases hg : env.getDetector with
    | error e => exact Or.inr (Or.inl ⟨e, rfl⟩)
    | ok u =>
      cases u
      dsimp only
      cases hd : env.detect (pyTake 1000 t) with
      | error e => exact Or.inr (Or.inl ⟨e, rfl⟩)
      | ok out =>
        dsimp only
        cases out with
        | nil => exact Or.inr (Or.inl ⟨"list index out of range", rfl⟩)
        | cons top rest =>
          refine Or.inr (Or.inr ⟨top, rest, rfl, ?_⟩)
          unfold textLikelihood
          by_cases h1 : (strContainsSub (pyLower top.label) "fake" ||
              strContainsSub (pyLower top.label) "generated") = true
          · simp [getItem0, h1]
          · by_cases h2 : (strContainsSub (pyLower top.label) "real" ||
                strContainsSub (pyLower top.label) "human") = true
            · simp [getItem0, h1, h2]
            · simp [getItem0, h1, h2]

/-- Exhaustive description of `process_audio_file`, disk state included:
a missing-filename error (disk untouched), a failed write (the temp file
remains on disk), a failure inside the inner `try` (temp file removed), or
a success (temp file removed). -/
lemma process_audio_file_cases (env : AudioEnv) (b : List Nat) (fn : Option String)
    (d : Disk) :
    (fn = none ∧ process_audio_file env b fn d =
      ((0, .error
        "Error processing audio: expected str, bytes or os.PathLike object, not NoneType"),
        d)) ∨
    (∃ e, env.write b = .error e ∧ process_audio_file env b fn d =
      ((0, .error ("Error processing audio: " ++ e)), env.tmpName :: d)) ∨
    (∃ e, process_audio_file env b fn d =
      ((0, .error ("Error processing audio: " ++ e)), d)) ∨
    (∃ wav top rest, env.classify wav = .ok (top :: rest) ∧
      process_audio_file env b fn d =
        ((if strContainsSub (pyLower top.label) "real" ||
            strContainsSub (pyLower top.label) "bonafide" then
          ((1 - top.score) * 100, .classifications (top :: rest))
        else
          (top.score * 100, .classifications (top :: rest))), d)) := by
  unfold process_audio_file
  cases fn with
  | none => exact Or.inl ⟨rfl, rfl⟩
  | some f =>
    dsimp only [splitextModel]
    cases hw : env.write b with
    | error e => exact Or.inr (Or.inl ⟨e, rfl, rfl⟩)
    | ok u =>
      cases u
      dsimp only
      have herase : (env.tmpName :: d).erase env.tmpName = d := List.erase_cons_head _ _
      rw [herase]
      unfold audioInner
      cases hl : env.load with
      | error e => exact Or.inr (Or.inr (Or.inl ⟨e, rfl⟩))
      | ok p =>
        obtain ⟨y, sr⟩ := p
        dsimp only
        cases he : env.encodeWav y sr with
        | error e => exact Or.inr (Or.inr (Or.inl ⟨e, rfl⟩))
        | ok wav =>
          dsimp only
          cases hg : env.getPipe with
          | error e => exact Or.inr (Or.inr (Or.inl ⟨e, rfl⟩))
          | ok u =>
            cases u
            dsimp only
            cases hc : env.classify wav with
            | error e => exact Or.inr (Or.inr (Or.inl ⟨e, rfl⟩))
            | ok out =>
              dsimp only
              cases out with
              | nil =>
                exact Or.inr (Or.inr (Or.inl ⟨"list index out of range", rfl⟩))
              | cons top rest =>
                refine Or.inr (Or.inr (Or.inr ⟨wav, top, rest, hc, ?_⟩))
                by_cases hcond : (strContainsSub (pyLower top.label) "real" ||
                    strContainsSub (pyLower top.label) "bonafide") = true
                · simp [getItem0, hcond]
                · simp [getItem0, hcond]

/-! ## Success-path equations -/

/-- When every image collaborator call succeeds, `image_score_ml` returns the
normalized top classification. -/
lemma image_success_eq (env : ImageEnv) (b pil : List Nat) (top : Classification)
    (rest : List Classification) (hp : env.getPipe = .ok ())
    (hd : env.decode b = .ok pil) (hc : env.classify pil = .ok (top :: rest)) :
    image_score_ml env b =
      (if strContainsSub (pyLower top.label) "real" ||
          strContainsSub (pyLower top.label) "realism" then
        ((1 - top.score) * 100, Details.classifications (top :: rest))
      else
        (top.score * 100, Details.classifications (top :: rest))) := by
  unfold image_score_ml imageBody
  rw [hp]
  dsimp only
  rw [hd]
  dsimp only
  rw [hc]
  dsimp only [getItem0]
  by_cases hcond : (strContainsSub (pyLower top.label) "real" ||
      strContainsSub (pyLower top.label) "realism") = true
  · simp [hcond]
  · simp [hcond]

/-- When every audio collaborator call succeeds, `process_audio_file` returns
the normalized top classification and leaves the disk unchanged. -/
lemma audio_success_eq (env : AudioEnv) (b wav : List Nat) (y : List ℚ) (sr : Nat)
    (f : String) (d : Disk) (top : Classification) (rest : List Classification)
    (hw : env.write b = .ok ()) (hl : env.load = .ok (y, sr))
    (he : env.encodeWav y sr = .ok wav) (hp : env.getPipe = .ok ())
    (hc : env.classify wav = .ok (top :: rest)) :
    process_audio_file env b (some f) d =
      ((if strContainsSub (pyLower top.label) "real" ||
          strContainsSub (pyLower top.label) "bonafide" then
        ((1 - top.score) * 100, Details.classifications (top :: rest))
      else
        (top.score * 100, Details.classifications (top :: rest))), d) := by
  unfold process_audio_file
  dsimp only [splitextModel]
  rw [hw]
  dsimp only
  rw [List.erase_cons_head]
  unfold audioInner
  rw [hl]
  dsimp only
  rw [he]
  dsimp only
  rw [hp]
  dsimp only
  rw [hc]
  dsimp only [getItem0]
  by_cases hcond : (strContainsSub (pyLower top.label) "real" ||
      strContainsSub (pyLower top.label) "bonafide") = true
  · simp [hcond]
  · simp [hcond]

/-- When the guard passes and every text collaborator call succeeds,
`text_score_ml` returns the text likelihood and the detector dict. -/
lemma text_success_eq (env : TextEnv) (t : String) (top : Classification)
    (rest : List Classification) (hlen : ¬ pyLen (pyStrip t) < 50)
    (hg : env.getDetector = .ok ())
    (hd : env.detect (pyTake 1000 t) = .ok (top :: rest)) :
    text_score_ml env t =
      (textLikelihood top, .textResult (pyLower top.label) (top.score * 100)) := by
  unfold text_score_ml textBody
  rw [if_neg hlen, hg]
  dsimp only
  rw [hd]
  dsimp only [getItem0]
  unfold textLikelihood
  by_cases h1 : (strContainsSub (pyLower top.label) "fake" ||
      strContainsSub (pyLower top.label) "generated") = true
  · simp [h1]
  · by_cases h2 : (strContainsSub (pyLower top.label) "real" ||
        strContainsSub (pyLower top.label) "human") = true
    · simp [h1, h2]
    · simp [h1, h2]

/-! ## Score bounds -/

lemma mul100_bounds {c : ℚ} (h0 : 0 ≤ c) (h1 : c ≤ 1) :
    0 ≤ c * 100 ∧ c * 100 ≤ 100 := by
  constructor <;> nlinarith

lemma inv100_bounds {c : ℚ} (h0 : 0 ≤ c) (h1 : c ≤ 1) :
    0 ≤ (1 - c) * 100 ∧ (1 - c) * 100 ≤ 100 := by
  constructor <;> nlinarith

lemma textLikelihood_bounds {top : Classification} (h0 : 0 ≤ top.score)
    (h1 : top.score ≤ 1) : 0 ≤ textLikelihood top ∧ textLikelihood top ≤ 100 := by
  unfold textLikelihood
  split_ifs <;> constructor <;> nlinarith

lemma textLikelihood_of_fake {top : Classification}
    (h : (strContainsSub (pyLower top.label) "fake" ||
      strContainsSub (pyLower top.label) "generated") = true) :
    textLikelihood top = top.score * 100 := by
  unfold textLikelihood
  rw [if_pos h]

lemma textLikelihood_of_auth {top : Classification}
    (h1 : (strContainsSub (pyLower top.label) "fake" ||
      strContainsSub (pyLower top.label) "generated") = false)
    (h2 : (strContainsSub (pyLower top.label) "real" ||
      strContainsSub (pyLower top.label) "human") = true) :
    textLikelihood top = 100 - top.score * 100 := by
  unfold textLikelihood
  rw [if_neg (by simp [h1]), if_pos h2]

lemma textLikelihood_of_other {top : Classification}
    (h1 : strContainsSub (pyLower top.label) "real" = false)
    (h2 : strContainsSub (pyLower top.label) "human" = false) :
    textLikelihood top = top.score * 100 := by
  unfold textLikelihood
  by_cases hf : (strContainsSub (pyLower top.label) "fake" ||
      strContainsSub (pyLower top.label) "generated") = true
  · rw [if_pos hf]
  · rw [if_neg hf, if_neg (by simp [h1, h2])]

/-! ## C1 -/

/-- C1 is false as stated for the text modality: the text label
`"Fake Real"` (confidence `0.25`) contains the authentic-indicating
substring `"real"`, yet the returned score is `100 * 0.25 = 25`, not
`100 * (1 - 0.25) = 75`, because the fake-indicating set is tested first. -/
theorem spec_C1_counterexample :
    strContainsSub (pyLower "Fake Real") "real" = true ∧
    (analyze_text textEnvFakeReal sixtyAs).1 = 100 * ((1 : ℚ)/4) ∧
    (100 * ((1 : ℚ)/4) : ℚ) ≠ 100 * (1 - (1 : ℚ)/4) := by
  refine ⟨by decide, ?_, by norm_num⟩
  have ht := text_success_eq textEnvFakeReal sixtyAs
    { label := "Fake Real", score := 1/4 } [] (by decide) rfl rfl
  show (text_score_ml textEnvFakeReal sixtyAs).1 = _
  rw [ht]
  dsimp only
  rw [textLikelihood_of_fake (by decide)]
  norm_num

/-- C1 (amended): for every top classification with confidence c: for the
image and audio modalities, a lower-cased label containing an
authentic-indicating substring ({real, realism} for image, {real, bonafide}
for audio) scores 100 * (1 - c) and any other label scores 100 * c; for the
text modality the fake-indicating set {fake, generated} is tested first, so
a label containing a fake-indicating substring scores 100 * c even when it
also contains an authentic indicator, a label with an authentic indicator
({real, human}) and no fake indicator scores 100 * (1 - c), and a label with
no authentic indicator scores 100 * c. -/
theorem spec_C1_normalization
    (ienv : ImageEnv) (b pil : List Nat) (itop : Classification)
    (irest : List Classification)
    (aenv : AudioEnv) (ab wav : List Nat) (y : List ℚ) (sr : Nat) (fn : String)
    (d : Disk) (atop : Classification) (arest : List Classification)
    (tenv : TextEnv) (t : String) (ttop : Classification)
    (trest : List Classification)
    (hip : ienv.getPipe = .ok ()) (hid : ienv.decode b = .ok pil)
    (hic : ienv.classify pil = .ok (itop :: irest))
    (haw : aenv.write ab = .ok ()) (hal : aenv.load = .ok (y, sr))
    (hae : aenv.encodeWav y sr = .ok wav) (hap : aenv.getPipe = .ok ())
    (hac : aenv.classify wav = .ok (atop :: arest))
    (htl : 50 ≤ pyLen (pyStrip t)) (htg : tenv.getDetector = .ok ())
    (htd : tenv.detect (pyTake 1000 t) = .ok (ttop :: trest)) :
    ((strContainsSub (pyLower itop.label) "real" = true ∨
        strContainsSub (pyLower itop.label) "realism" = true →
        (image_score_ml ienv b).1 = 100 * (1 - itop.score)) ∧
      (strContainsSub (pyLower itop.label) "real" = false ∧
        strContainsSub (pyLower itop.label) "realism" = false →
        (image_score_ml ienv b).1 = 100 * itop.score)) ∧
    ((strContainsSub (pyLower atop.label) "real" = true ∨
        strContainsSub (pyLower atop.label) "bonafide" = true →
        (process_audio_file aenv ab (some fn) d).1.1 = 100 * (1 - atop.score)) ∧
      (strContainsSub (pyLower atop.label) "real" = false ∧
        strContainsSub (pyLower atop.label) "bonafide" = false →
        (process_audio_file aenv ab (some fn) d).1.1 = 100 * atop.score)) ∧
    ((strContainsSub (pyLower ttop.label) "fake" = true ∨
        strContainsSub (pyLower ttop.label) "generated" = true →
        (analyze_text tenv t).1 = 100 * ttop.score) ∧
      (strContainsSub (pyLower ttop.label) "fake" = false ∧
        strContainsSub (pyLower ttop.label) "generated" = false ∧
        (strContainsSub (pyLower ttop.label) "real" = true ∨
          strContainsSub (pyLower ttop.label) "human" = true) →
        (analyze_text tenv t).1 = 100 * (1 - ttop.score)) ∧
      (strContainsSub (pyLower ttop.label) "real" = false ∧
        strContainsSub (pyLower ttop.label) "human" = false →
        (analyze_text tenv t).1 = 100 * ttop.score)) := by
  have hi := image_success_eq ienv b pil itop irest hip hid hic
  have ha := audio_success_eq aenv ab wav y sr fn d atop arest haw hal hae hap hac
  have ht := text_success_eq tenv t ttop trest (by omega) htg htd
  refine ⟨⟨?_, ?_⟩, ⟨?_, ?_⟩, ?_, ?_, ?_⟩
  · rintro (h | h) <;> rw [hi] <;> simp [h] <;> ring
  · rintro ⟨h1, h2⟩
    rw [hi]
    simp [h1, h2]
    ring
  · rintro (h | h) <;> rw [ha] <;> simp [h] <;> ring
  · rintro ⟨h1, h2⟩
    rw [ha]
    simp [h1, h2]
    ring
  · intro h
    have hb : (strContainsSub (pyLower ttop.label) "fake" ||
        strContainsSub (pyLower ttop.label) "generated") = true := by
      rcases h with h | h <;> simp [h]
    show (text_score_ml tenv t).1 = _
    rw [ht]
    dsimp only
    rw [textLikelihood_of_fake hb]
    ring
  · rintro ⟨h1, h2, h3⟩
    have hb : (strContainsSub (pyLower ttop.label) "real" ||
        strContainsSub (pyLower ttop.label) "human") = true := by
      rcases h3 with h3 | h3 <;> simp [h3]
    show (text_score_ml tenv t).1 = _
    rw [ht]
    dsimp only
    rw [textLikelihood_of_auth (by simp [h1, h2]) hb]
    ring
  · rintro ⟨h1, h2⟩
    show (text_score_ml tenv t).1 = _
    rw [ht]
    dsimp only
    rw [textLikelihood_of_other h1 h2]
    ring

/-- C1 witness: image top `Realism` at `0.9` scores `10`; audio top
`bonafide` at `0.6` scores `40`; text top `Fake` at `0.82` scores `82`. -/
theorem spec_C1_normalization_witness :
    (image_score_ml imageEnvRealism [0]).1 = 100 * (1 - (9 : ℚ)/10) ∧
    (process_audio_file audioEnvBonafide [0] (some "clip.wav") []).1.1 =
      100 * (1 - (3 : ℚ)/5) ∧
    (analyze_text textEnvFake sixtyAs).1 = 100 * ((82 : ℚ)/100) := by
  have h := spec_C1_normalization imageEnvRealism [0] [7]
    { label := "Realism", score := 9/10 } []
    audioEnvBonafide [0] [2] [] 16000 "clip.wav" []
    { label := "bonafide", score := 3/5 } []
    textEnvFake sixtyAs { label := "Fake", score := 82/100 } []
    rfl rfl rfl rfl rfl rfl rfl rfl (by decide) rfl rfl
  exact ⟨h.1.1 (Or.inl (by decide)), h.2.1.1 (Or.inr (by decide)),
    h.2.2.1 (Or.inl (by decide))⟩

/-! ## C2 -/

/-- C2 is false as stated: the text label `"Generated-Human"` (confidence
`0.7`) contains the authentic-indicating substring `"human"`, yet the
returned score is the direct `100 * 0.7 = 70`, not the inverted
`100 * (1 - 0.7) = 30`: the text chain tests the fake-indicating set
first, not the authentic-indicating set. -/
theorem spec_C2_counterexample :
    strContainsSub (pyLower "Generated-Human") "human" = true ∧
    (analyze_text textEnvGenHuman sixtyAs).1 = 100 * ((7 : ℚ)/10) ∧
    (100 * ((7 : ℚ)/10) : ℚ) ≠ 100 * (1 - (7 : ℚ)/10) := by
  refine ⟨by decide, ?_, by norm_num⟩
  have ht := text_success_eq textEnvGenHuman sixtyAs
    { label := "Generated-Human", score := 7/10 } [] (by decide) rfl rfl
  show (text_score_ml textEnvGenHuman sixtyAs).1 = _
  rw [ht]
  dsimp only
  rw [textLikelihood_of_fake (by decide)]
  norm_num

/-- C2 (amended): for the image and audio modalities an authentic-indicating
match inverts the confidence regardless of any fake-indicating substring in
the label (those chains test only the authentic set); for the text modality
the fake-indicating set is tested first, so a label containing a
fake-indicating substring scores the direct confidence 100 * c even when it
also contains an authentic-indicating substring. -/
theorem spec_C2_priority
    (ienv : ImageEnv) (b pil : List Nat) (itop : Classification)
    (irest : List Classification)
    (aenv : AudioEnv) (ab wav : List Nat) (y : List ℚ) (sr : Nat) (fn : String)
    (d : Disk) (atop : Classification) (arest : List Classification)
    (tenv : TextEnv) (t : String) (ttop : Classification)
    (trest : List Classification)
    (hip : ienv.getPipe = .ok ()) (hid : ienv.decode b = .ok pil)
    (hic : ienv.classify pil = .ok (itop :: irest))
    (haw : aenv.write ab = .ok ()) (hal : aenv.load = .ok (y, sr))
    (hae : aenv.encodeWav y sr = .ok wav) (hap : aenv.getPipe = .ok ())
    (hac : aenv.classify wav = .ok (atop :: arest))
    (htl : 50 ≤ pyLen (pyStrip t)) (htg : tenv.getDetector = .ok ())
    (htd : tenv.detect (pyTake 1000 t) = .ok (ttop :: trest)) :
    (strContainsSub (pyLower itop.label) "real" = true →
      (image_score_ml ienv b).1 = 100 * (1 - itop.score)) ∧
    (strContainsSub (pyLower atop.label) "real" = true ∨
      strContainsSub (pyLower atop.label) "bonafide" = true →
      (process_audio_file aenv ab (some fn) d).1.1 = 100 * (1 - atop.score)) ∧
    (strContainsSub (pyLower ttop.label) "fake" = true ∨
      strContainsSub (pyLower ttop.label) "generated" = true →
      (analyze_text tenv t).1 = 100 * ttop.score) := by
  have hi := image_success_eq ienv b pil itop irest hip hid hic
  have ha := audio_success_eq aenv ab wav y sr fn d atop arest haw hal hae hap hac
  have ht := text_success_eq tenv t ttop trest (by omega) htg htd
  refine ⟨?_, ?_, ?_⟩
  · intro h
    rw [hi]
    simp [h]
    ring
  · rintro (h | h) <;> rw [ha] <;> simp [h] <;> ring
  · intro h
    have hb : (strContainsSub (pyLower ttop.label) "fake" ||
        strContainsSub (pyLower ttop.label) "generated") = true := by
      rcases h with h | h <;> simp [h]
    show (text_score_ml tenv t).1 = _
    rw [ht]
    dsimp only
    rw [textLikelihood_of_fake hb]
    ring

/-! ## Per-analyzer result invariants -/

lemma image_resultOk (env : ImageEnv) (b : List Nat) (hr : env.rangeOk) :
    resultOk (image_score_ml env b) := by
  rcases image_score_ml_cases env b with ⟨e, h⟩ | ⟨pil, top, rest, _, hc, h⟩
  · rw [h]
    exact ⟨fun hf => by simp [Details.hasError] at hf, fun _ => rfl⟩
  · have hb := hr pil (top :: rest) hc top (List.mem_cons_self _ _)
    rw [h]
    by_cases hcond : (strContainsSub (pyLower top.label) "real" ||
        strContainsSub (pyLower top.label) "realism") = true
    · rw [if_pos hcond]
      exact ⟨fun _ => inv100_bounds hb.1 hb.2,
        fun hf => by simp [Details.hasError] at hf⟩
    · rw [if_neg hcond]
      exact ⟨fun _ => mul100_bounds hb.1 hb.2,
        fun hf => by simp [Details.hasError] at hf⟩

lemma audio_resultOk (env : AudioEnv) (b : List Nat) (fn : Option String)
    (d : Disk) (hr : env.rangeOk) :
    resultOk (process_audio_file env b fn d).1 := by
  rcases process_audio_file_cases env b fn d with
    ⟨_, h⟩ | ⟨e, _, h⟩ | ⟨e, h⟩ | ⟨wav, top, rest, hc, h⟩
  · rw [h]
    exact ⟨fun hf => by simp [Details.hasError] at hf, fun _ => rfl⟩
  · rw [h]
    exact ⟨fun hf => by simp [Details.hasError] at hf, fun _ => rfl⟩
  · rw [h]
    exact ⟨fun hf => by simp [Details.hasError] at hf, fun _ => rfl⟩
  · have hb := hr wav (top :: rest) hc top (List.mem_cons_self _ _)
    rw [h]
    by_cases hcond : (strContainsSub (pyLower top.label) "real" ||
        strContainsSub (pyLower top.label) "bonafide") = true
    · rw [if_pos hcond]
      exact ⟨fun _ => inv100_bounds hb.1 hb.2,
        fun hf => by simp [Details.hasError] at hf⟩
    · rw [if_neg hcond]
      exact ⟨fun _ => mul100_bounds hb.1 hb.2,
        fun hf => by simp [Details.hasError] at hf⟩

lemma text_resultOk (env : TextEnv) (t : String) (hr : env.rangeOk) :
    resultOk (text_score_ml env t) := by
  rcases text_score_ml_cases env t with ⟨_, h⟩ | ⟨e, h⟩ | ⟨top, rest, hd, h⟩
  · rw [h]
    exact ⟨fun hf => by simp [Details.hasError] at hf, fun _ => rfl⟩
  · rw [h]
    exact ⟨fun hf => by simp [Details.hasError] at hf, fun _ => rfl⟩
  · have hb := hr (pyTake 1000 t) (top :: rest) hd top (List.mem_cons_self _ _)
    rw [h]
    exact ⟨fun _ => textLikelihood_bounds hb.1 hb.2,
      fun hf => by simp [Details.hasError] at hf⟩

/-! ## C3 -/

/-- C3: assuming every collaborator only emits confidences in `[0,1]`, each
result of `analyze_content` and `analyze_text` satisfies the invariant: no
error entry in details implies `0 ≤ score ≤ 100`, and an error entry in
details implies `score = 0`, so failures are distinguishable from
confident-authentic verdicts by inspecting the details alone. -/
theorem spec_C3_result_invariant (env : Env) (tenv : TextEnv) (m : String)
    (b : List Nat) (fn : Option String) (d : Disk) (t : String)
    (hi : env.image.rangeOk) (ha : env.audio.rangeOk) (ht : tenv.rangeOk) :
    resultOk (analyze_content env m b fn d).1 ∧ resultOk (analyze_text tenv t) := by
  constructor
  · unfold analyze_content
    by_cases hm : m = "Image" ∨ m = "Video"
    · rw [if_pos hm]
      exact image_resultOk env.image b hi
    · rw [if_neg hm]
      by_cases hma : m = "Audio"
      · rw [if_pos hma]
        exact audio_resultOk env.audio b fn d ha
      · rw [if_neg hma]
        exact ⟨fun hf => by simp [Details.hasError] at hf, fun _ => rfl⟩
  · exact text_resultOk tenv t ht

/-- C3 witness: the invariant instantiated at a succeeding environment. -/
theorem spec_C3_result_invariant_witness :
    resultOk (analyze_content envOk "Image" [0] none []).1 ∧
    resultOk (analyze_text textEnvFake sixtyAs) := by
  refine spec_C3_result_invariant envOk textEnvFake "Image" [0] none [] sixtyAs
    ?_ ?_ ?_
  · intro pil out h
    simp only [envOk, imageEnvRealism, Except.ok.injEq] at h
    subst h
    intro cl hcl
    simp only [List.mem_singleton] at hcl
    subst hcl
    constructor <;> norm_num
  · intro wav out h
    simp only [envOk, audioEnvBonafide, Except.ok.injEq] at h
    subst h
    intro cl hcl
    simp only [List.mem_singleton] at hcl
    subst hcl
    constructor <;> norm_num
  · intro s out h
    simp only [textEnvFake, Except.ok.injEq] at h
    subst h
    intro cl hcl
    simp only [List.mem_singleton] at hcl
    subst hcl
    constructor <;> norm_num

/-! ## C4 -/

/-- C4: for every modality string, byte input, filename, text, and every
collaborator behavior — including failures raised during decode or
inference — `analyze_content` and `analyze_text` return a `(score, details)`
result of one of the encoded shapes; the embedding returns a plain pair for
every environment, so no exception escapes: all failure is an error result
with score `0`. -/
theorem spec_C4_total (env : Env) (tenv : TextEnv) (m : String) (b : List Nat)
    (fn : Option String) (d : Disk) (t : String) :
    contentShaped (analyze_content env m b fn d).1 ∧
    textShaped (analyze_text tenv t) := by
  constructor
  · unfold analyze_content
    by_cases hm : m = "Image" ∨ m = "Video"
    · rw [if_pos hm]
      rcases image_score_ml_cases env.image b with ⟨e, h⟩ | ⟨pil, top, rest, _, _, h⟩
      · exact Or.inl ⟨by rw [h], by rw [h]; exact ⟨_, rfl⟩⟩
      · refine Or.inr ?_
        rw [h]
        by_cases hcond : (strContainsSub (pyLower top.label) "real" ||
            strContainsSub (pyLower top.label) "realism") = true
        · rw [if_pos hcond]; exact ⟨_, rfl⟩
        · rw [if_neg hcond]; exact ⟨_, rfl⟩
    · rw [if_neg hm]
      by_cases hma : m = "Audio"
      · rw [if_pos hma]
        show contentShaped (process_audio_file env.audio b fn d).1
        rcases process_audio_file_cases env.audio b fn d with
          ⟨_, h⟩ | ⟨e, _, h⟩ | ⟨e, h⟩ | ⟨wav, top, rest, _, h⟩
        · exact Or.inl ⟨by rw [h], by rw [h]; exact ⟨_, rfl⟩⟩
        · exact Or.inl ⟨by rw [h], by rw [h]; exact ⟨_, rfl⟩⟩
        · exact Or.inl ⟨by rw [h], by rw [h]; exact ⟨_, rfl⟩⟩
        · refine Or.inr ?_
          rw [h]
          by_cases hcond : (strContainsSub (pyLower top.label) "real" ||
              strContainsSub (pyLower top.label) "bonafide") = true
          · rw [if_pos hcond]; exact ⟨_, rfl⟩
          · rw [if_neg hcond]; exact ⟨_, rfl⟩
      · rw [if_neg hma]
        exact Or.inl ⟨rfl, _, rfl⟩
  · show textShaped (text_score_ml tenv t)
    rcases text_score_ml_cases tenv t with ⟨_, h⟩ | ⟨e, h⟩ | ⟨top, rest, _, h⟩
    · rw [h]; exact Or.inl ⟨rfl, rfl⟩
    · rw [h]; exact Or.inl ⟨rfl, rfl⟩
    · rw [h]; exact Or.inr ⟨_, _, rfl⟩

/-- C2 witness: image top `"Fake Real"` at `0.1` scores the inverted `90`
(authentic match wins although `"fake"` is present); audio top
`"Spoof-Bonafide"` at `0.4` scores the inverted `60`; text top
`"Generated-Human"` at `0.7` scores the direct `70` (fake match wins
although `"human"` is present). -/
theorem spec_C2_priority_witness :
    (image_score_ml imageEnvFakeReal [0]).1 = 100 * (1 - (1 : ℚ)/10) ∧
    (process_audio_file audioEnvSpoofBonafide [0] (some "clip.wav") []).1.1 =
      100 * (1 - (2 : ℚ)/5) ∧
    (analyze_text textEnvGenHuman sixtyAs).1 = 100 * ((7 : ℚ)/10) := by
  have h := spec_C2_priority imageEnvFakeReal [0] [5]
    { label := "Fake Real", score := 1/10 } []
    audioEnvSpoofBonafide [0] [3] [] 16000 "clip.wav" []
    { label := "Spoof-Bonafide", score := 2/5 } []
    textEnvGenHuman sixtyAs { label := "Generated-Human", score := 7/10 } []
    rfl rfl rfl rfl rfl rfl rfl rfl (by decide) rfl rfl
  exact ⟨h.1 (by decide), h.2.1 (Or.inr (by decide)), h.2.2 (Or.inr (by decide))⟩

/-! ## C5 -/

/-- When the write into the temp file succeeds, the `finally` block removes
the temp file on every later outcome: the disk is left exactly as found. -/
lemma audio_cleanup_of_write_ok (env : AudioEnv) (b : List Nat)
    (fn : Option String) (d : Disk) (hw : env.write b = .ok ()) :
    (process_audio_file env b fn d).2 = d := by
  unfold process_audio_file
  cases fn with
  | none => rfl
  | some f =>
    dsimp only [splitextModel]
    rw [hw]
    dsimp only
    rw [List.erase_cons_head]
    cases audioInner env <;> rfl

/-- C5 fails on the write-failure path: when `tmp.write(audio_bytes)`
raises (for example, disk full), the `finally` that unlinks the temp file
is never entered — the write precedes the inner `try` — so the temp file
created by `NamedTemporaryFile` remains on disk after the call returns its
error result. -/
theorem spec_C5_leak :
    analyze_content envLeak "Audio" [1] (some "clip.wav") [] =
      ((0, .error "Error processing audio: No space left on device"),
        ["/tmp/tmpleak.wav"]) ∧
    leakEnv.tmpName ∈ (analyze_content envLeak "Audio" [1] (some "clip.wav") []).2 := by
  have h : analyze_content envLeak "Audio" [1] (some "clip.wav") [] =
      ((0, .error "Error processing audio: No space left on device"),
        ["/tmp/tmpleak.wav"]) := by
    simp only [analyze_content, audio_score_ml, process_audio_file, splitextModel,
      envLeak]
    rw [if_neg (by decide)]
    rfl
  refine ⟨h, ?_⟩
  rw [h]
  simp [leakEnv]

/-! ## C6 -/

/-- C6: for text whose stripped length is below 50, `analyze_text` returns
score `0` with the structured short-text error carrying the text length,
and the result is identical for every collaborator environment (so the text
detector handle is never obtained); for stripped length at least 50 the
guard does not fire. -/
theorem spec_C6_short_guard (tenv tenv' : TextEnv) (t : String) :
    (pyLen (pyStrip t) < 50 →
      analyze_text tenv t =
        (0, .shortText "Text is too short for accurate analysis" (pyLen t)) ∧
      analyze_text tenv t = analyze_text tenv' t) ∧
    (50 ≤ pyLen (pyStrip t) →
      ∀ msg n, (analyze_text tenv t).2 ≠ .shortText msg n) := by
  constructor
  · intro h
    have e1 : analyze_text tenv t =
        (0, .shortText "Text is too short for accurate analysis" (pyLen t)) := by
      show text_score_ml tenv t = _
      unfold text_score_ml textBody
      rw [if_pos h]
    have e2 : analyze_text tenv' t =
        (0, .shortText "Text is too short for accurate analysis" (pyLen t)) := by
      show text_score_ml tenv' t = _
      unfold text_score_ml textBody
      rw [if_pos h]
    exact ⟨e1, e1.trans e2.symm⟩
  · intro h msg n
    show (text_score_ml tenv t).2 ≠ _
    rcases text_score_ml_cases tenv t with ⟨hlt, _⟩ | ⟨e, he⟩ | ⟨top, rest, _, hs⟩
    · omega
    · rw [he]
      simp
    · rw [hs]
      simp

/-- C6 witness: a 5-character input is rejected with the structured error
under a failing environment and under a succeeding one, with the same
result; a 60-character input is not rejected by the guard. -/
theorem spec_C6_short_guard_witness :
    (analyze_text textEnvErr "short" =
      (0, .shortText "Text is too short for accurate analysis" 5) ∧
      analyze_text textEnvErr "short" = analyze_text textEnvFake "short") ∧
    (analyze_text textEnvFake sixtyAs).2 ≠
      .shortText "Text is too short for accurate analysis" 60 := by
  refine ⟨?_, ?_⟩
  · exact (spec_C6_short_guard textEnvErr textEnvFake "short").1 (by decide)
  · exact (spec_C6_short_guard textEnvFake textEnvErr sixtyAs).2 (by decide)
      "Text is too short for accurate analysis" 60

/-! ## C7 -/

/-- C7 is false as stated: `analyze_content` with modality `"Text"` is not
dispatched to any text analysis — it falls through to the
`"Unsupported modality"` error result reserved for unrecognized
modalities. -/
theorem spec_C7_counterexample :
    analyze_content envErr "Text" [1] none [] =
      ((0, .error "Unsupported modality"), []) ∧
    (analyze_content envErr "Text" [1] none []).1.2.hasError = true := by
  have h : analyze_content envErr "Text" [1] none [] =
      ((0, .error "Unsupported modality"), []) := by
    unfold analyze_content
    rw [if_neg (by decide), if_neg (by decide)]
  exact ⟨h, by rw [h]; rfl⟩

/-- C7 (amended): `analyze_content` dispatches `Image` and `Video` to the
image analyzer and `Audio` to the audio analyzer; the modality `"Text"` is
not handled by `analyze_content` and yields the unsupported-modality error
result — text analysis is reached only through the separate `analyze_text`
entry point, which forwards to the text analyzer. -/
theorem spec_C7_dispatch (env : Env) (tenv : TextEnv) (b : List Nat)
    (fn : Option String) (d : Disk) (t : String) :
    analyze_content env "Image" b fn d = (image_score_ml env.image b, d) ∧
    analyze_content env "Video" b fn d = (image_score_ml env.image b, d) ∧
    analyze_content env "Audio" b fn d = process_audio_file env.audio b fn d ∧
    analyze_content env "Text" b fn d = ((0, .error "Unsupported modality"), d) ∧
    analyze_text tenv t = text_score_ml tenv t := by
  refine ⟨?_, ?_, ?_, ?_, rfl⟩
  · unfold analyze_content
    rw [if_pos (Or.inl rfl)]
  · unfold analyze_content
    rw [if_pos (Or.inr rfl)]
  · unfold analyze_content
    rw [if_neg (by decide), if_pos rfl]
    rfl
  · unfold analyze_content
    rw [if_neg (by decide), if_neg (by decide)]

/-! ## C8 -/

/-- C8: every modality string other than `Image`, `Video` and `Audio`
yields score `0` with the unsupported-modality error, for every
environment — in particular for one whose collaborators all fail, showing
no collaborator is consulted. -/
theorem spec_C8_unsupported (env : Env) (m : String) (b : List Nat)
    (fn : Option String) (d : Disk) (h1 : m ≠ "Image") (h2 : m ≠ "Video")
    (h3 : m ≠ "Audio") :
    analyze_content env m b fn d = ((0, .error "Unsupported modality"), d) := by
  unfold analyze_content
  rw [if_neg (by rintro (h | h); exacts [h1 h, h2 h]), if_neg h3]

/-- C8 witness: the unknown modality `"Unsupported"` under the all-failing
environment. -/
theorem spec_C8_unsupported_witness :
    analyze_content envErr "Unsupported" [1] none [] =
      ((0, .error "Unsupported modality"), []) :=
  spec_C8_unsupported envErr "Unsupported" [1] none []
    (by decide) (by decide) (by decide)

/-! ## C10 -/

/-- C10: when the short-text guard fires, the reported `text_length` is the
length of the original, unstripped text, even though the guard tests the
stripped length; consequently there is an input of total length at least 50
whose stripped length is below 50, for which the error reports
`text_length ≥ 50`. -/
theorem spec_C10_reported_length (tenv : TextEnv) :
    (∀ t, pyLen (pyStrip t) < 50 →
      (analyze_text tenv t).2 =
        .shortText "Text is too short for accurate analysis" (pyLen t)) ∧
    (∃ t, 50 ≤ pyLen t ∧ pyLen (pyStrip t) < 50 ∧
      analyze_text tenv t =
        (0, .shortText "Text is too short for accurate analysis" (pyLen t))) := by
  constructor
  · intro t h
    show (text_score_ml tenv t).2 = _
    unfold text_score_ml textBody
    rw [if_pos h]
  · refine ⟨paddedShort, by decide, by decide, ?_⟩
    show text_score_ml tenv paddedShort = _
    unfold text_score_ml textBody
    rw [if_pos (by decide)]

/-- C10 witness: the guard's reported length at a 5-character input, and
the padded 55-character input whose stripped length is 10. -/
theorem spec_C10_reported_length_witness :
    (analyze_text textEnvFake "short").2 =
      .shortText "Text is too short for accurate analysis" 5 ∧
    (∃ t, 50 ≤ pyLen t ∧ pyLen (pyStrip t) < 50 ∧
      analyze_text textEnvFake t =
        (0, .shortText "Text is too short for accurate analysis" (pyLen t))) :=
  ⟨(spec_C10_reported_length textEnvFake).1 "short" (by decide),
    (spec_C10_reported_length textEnvFake).2⟩

end DeepGuard
